import Mathlib

/-!
A shallow embedding of the connection and transaction core of the
repository: the generic `Connection` and `ConnectOptions` trait defaults
and the `LogSettings` value from `sqlx-core/src/connection.rs`, and the
`SqliteTransactionManager` from `sqlx-sqlite/src/transaction.rs`.

Trait methods with abstract receivers are embedded as functions
parametrised by the backend state type and by the backend-supplied
operations; futures are flattened to their resolved values, and fallible
operations either return `Except` or pair an `Option` error with the
updated state (mirroring a `&mut self` receiver plus a `Result`).
-/

/-- The log-level filter `log::LevelFilter` used by the statement-logging
policy. -/
inductive LevelFilter
  | off
  | error
  | warn
  | info
  | debug
  | trace
deriving DecidableEq, Repr

/-- The type `std::time::Duration`: whole seconds plus sub-second
nanoseconds. -/
structure Duration where
  secs : Nat
  nanos : Nat
deriving DecidableEq, Repr

/-- The constructor `Duration::from_secs`. -/
def Duration.from_secs (s : Nat) : Duration := ⟨s, 0⟩

/-- The value `Duration::default()`: the zero duration. -/
def Duration.default : Duration := ⟨0, 0⟩

/-- The struct `LogSettings` from `sqlx-core/src/connection.rs`. -/
structure LogSettings where
  statements_level : LevelFilter
  slow_statements_level : LevelFilter
  slow_statements_duration : Duration
deriving DecidableEq, Repr

/-- The impl of `Default for LogSettings`. -/
def LogSettings.default : LogSettings :=
  { statements_level := LevelFilter.debug
    slow_statements_level := LevelFilter.warn
    slow_statements_duration := Duration.from_secs 1 }

/-- The method `LogSettings::log_statements`: its `&mut self` receiver is
embedded as taking and returning the settings value. -/
def LogSettings.log_statements (self : LogSettings) (level : LevelFilter) :
    LogSettings :=
  { self with statements_level := level }

/-- The method `LogSettings::log_slow_statements`. -/
def LogSettings.log_slow_statements (self : LogSettings) (level : LevelFilter)
    (duration : Duration) : LogSettings :=
  { self with slow_statements_level := level
              slow_statements_duration := duration }

/-- The provided method `ConnectOptions::disable_statement_logging`,
parametrised by the two required setter methods of the trait (the options
type `O` and its setters are abstract in the source). -/
def ConnectOptions.disable_statement_logging {O : Type}
    (log_statements : O → LevelFilter → O)
    (log_slow_statements : O → LevelFilter → Duration → O)
    (self : O) : O :=
  log_slow_statements (log_statements self LevelFilter.off) LevelFilter.off
    Duration.default

/-- The provided method `Connection::cached_statements_size`: its default
body returns `0` for any backend state. -/
def Connection.cached_statements_size {σ : Type} (_self : σ) : Nat := 0

/-- The provided method `Connection::clear_cached_statements`: its default
body is `Box::pin(async move { Ok(()) })`, leaving the connection state
untouched. -/
def Connection.clear_cached_statements {σ E : Type} (self : σ) :
    Except E Unit × σ :=
  (Except.ok (), self)

/-- The provided method `Connection::begin_concurrent`: its default body is
`self.begin()`, parametrised by the required `begin` method. A fallible
`&mut self` operation is a function from state to an optional error paired
with the updated state (`none` is success). -/
def Connection.begin_concurrent {σ Err : Type}
    (beginFn : σ → Option Err × σ) (self : σ) : Option Err × σ :=
  beginFn self

/-- The provided method `Connection::transaction`, parametrised by the
transaction operations `begin` / `commit` / `rollback` of the backend, the
`From<Error>` conversion `fromErr` of the caller error type, and the
callback. Mirrors the source: begin (propagating its failure), run the
callback, then commit on `Ok` and rollback on `Err`, each followed by `?`
before the callback result is returned. -/
def Connection.transaction {σ R Err E : Type}
    (beginTx commit rollback : σ → Option Err × σ)
    (fromErr : Err → E)
    (callback : σ → Except E R × σ)
    (self : σ) : Except E R × σ :=
  match beginTx self with
  | (some e, s1) => (Except.error (fromErr e), s1)
  | (none, s1) =>
    match callback s1 with
    | (Except.ok ret, s2) =>
      match commit s2 with
      | (some e, s3) => (Except.error (fromErr e), s3)
      | (none, s3) => (Except.ok ret, s3)
    | (Except.error err, s2) =>
      match rollback s2 with
      | (some e, s3) => (Except.error (fromErr e), s3)
      | (none, s3) => (Except.error err, s3)

/-- The provided method `Connection::connect_with`: its default body
delegates to `ConnectOptions::connect`, here the parameter `connectFn`. -/
def Connection.connect_with {O C E : Type}
    (connectFn : O → Except E C) (options : O) : Except E C :=
  connectFn options

/-- The provided method `Connection::connect`: parse the url into options
(`url.parse()` is the abstract `FromStr` impl, here `parse`), propagate a
parse failure with `?`, otherwise call `Self::connect_with`. -/
def Connection.connect {O C E : Type}
    (parse : String → Except E O)
    (connectFn : O → Except E C) (url : String) : Except E C :=
  match parse url with
  | Except.error e => Except.error e
  | Except.ok o => Connection.connect_with connectFn o

/-- The state of the dedicated SQLite worker visible to the transaction
state machine: the current `TransactionDepth` and the transcript of
transaction commands it has issued to the native handle so far. -/
structure WorkerState where
  depth : Nat
  issued : List String
deriving DecidableEq, Repr

/-- Errors surfaced by the worker command path: an out-of-order
commit/rollback (depth mismatch, a caller contract violation) or a failed
command submission because the worker context has terminated. -/
inductive WorkerError
  | outOfOrder
  | channelClosed
deriving DecidableEq, Repr

/-- Modelled from the spec: the deterministic savepoint name, a fixed
prefix plus the depth number. -/
def savepointName (n : Nat) : String :=
  "sqlx_savepoint_" ++ toString n

/-- Modelled from the spec: `ConnectionWorker::begin` (the SQLite worker
is not under `src/`). Depth 0 to 1 issues the native transaction start;
depth N to N+1 (N at least 1) issues a named savepoint derived from the
new depth. -/
def ConnectionWorker.begin (st : WorkerState) : WorkerState :=
  if st.depth = 0 then
    { depth := 1, issued := st.issued ++ ["BEGIN"] }
  else
    { depth := st.depth + 1
      issued := st.issued ++ ["SAVEPOINT " ++ savepointName (st.depth + 1)] }

/-- Modelled from the spec: `ConnectionWorker::begin_concurrent` (the
SQLite worker is not under `src/`). The spec requires it to be
semantically identical to `begin` on a backend without true
concurrent-transaction support: the same depth transition and the same
issued command at every depth. -/
def ConnectionWorker.begin_concurrent (st : WorkerState) : WorkerState :=
  if st.depth = 0 then
    { depth := 1, issued := st.issued ++ ["BEGIN"] }
  else
    { depth := st.depth + 1
      issued := st.issued ++ ["SAVEPOINT " ++ savepointName (st.depth + 1)] }

/-- Modelled from the spec: `ConnectionWorker::commit` (the SQLite worker
is not under `src/`). Depth 1 to 0 issues the native commit; depth N to
N-1 (N greater than 1) releases the savepoint of the current depth; at
depth 0 there is nothing to resolve and the call is an out-of-order
error. -/
def ConnectionWorker.commit (st : WorkerState) : Except WorkerError WorkerState :=
  match st.depth with
  | 0 => Except.error WorkerError.outOfOrder
  | 1 => Except.ok { depth := 0, issued := st.issued ++ ["COMMIT"] }
  | n + 2 =>
    Except.ok
      { depth := n + 1
        issued := st.issued ++ ["RELEASE " ++ savepointName (n + 2)] }

/-- Modelled from the spec: `ConnectionWorker::rollback` (the SQLite
worker is not under `src/`). Depth 1 to 0 issues the native rollback;
depth N to N-1 (N greater than 1) rolls back to the savepoint of the
current depth; at depth 0 it is an out-of-order error. -/
def ConnectionWorker.rollback (st : WorkerState) : Except WorkerError WorkerState :=
  match st.depth with
  | 0 => Except.error WorkerError.outOfOrder
  | 1 => Except.ok { depth := 0, issued := st.issued ++ ["ROLLBACK"] }
  | n + 2 =>
    Except.ok
      { depth := n + 1
        issued := st.issued ++ ["ROLLBACK TO " ++ savepointName (n + 2)] }

/-- Modelled from the spec: `ConnectionWorker::start_rollback` (the SQLite
worker is not under `src/`) enqueues a rollback command without awaiting
it; the enqueue itself is fallible (the worker context may have shut
down), which is abstracted here as the `submit` parameter. -/
def ConnectionWorker.start_rollback {σ : Type}
    (submit : σ → Except WorkerError σ) (st : σ) : Except WorkerError σ :=
  submit st

/-- `SqliteTransactionManager::begin` from
`sqlx-sqlite/src/transaction.rs`: delegates to `conn.worker.begin()`. -/
def SqliteTransactionManager.begin (conn : WorkerState) : WorkerState :=
  ConnectionWorker.begin conn

/-- `SqliteTransactionManager::begin_concurrent`: delegates to
`conn.worker.begin_concurrent()`. -/
def SqliteTransactionManager.begin_concurrent (conn : WorkerState) :
    WorkerState :=
  ConnectionWorker.begin_concurrent conn

/-- `SqliteTransactionManager::commit`: delegates to
`conn.worker.commit()`. -/
def SqliteTransactionManager.commit (conn : WorkerState) :
    Except WorkerError WorkerState :=
  ConnectionWorker.commit conn

/-- `SqliteTransactionManager::rollback`: delegates to
`conn.worker.rollback()`. -/
def SqliteTransactionManager.rollback (conn : WorkerState) :
    Except WorkerError WorkerState :=
  ConnectionWorker.rollback conn

/-- `SqliteTransactionManager::start_rollback` from
`sqx-sqlite/src/transaction.rs`: calls `conn.worker.start_rollback().ok()`
discarding a possible failure, and returns unit; embedded as returning the
connection state (unchanged when the submission failed). -/
def SqliteTransactionManager.start_rollback
    (submit : WorkerState → Except WorkerError WorkerState)
    (conn : WorkerState) : WorkerState :=
  match ConnectionWorker.start_rollback submit conn with
  | Except.ok st => st
  | Except.error _ => conn

/-- Iterated `SqliteTransactionManager::begin`: N nested begins. -/
def SqliteTransactionManager.beginN : Nat → WorkerState → WorkerState
  | 0, st => st
  | n + 1, st => SqliteTransactionManager.beginN n (SqliteTransactionManager.begin st)

/-- Iterated `SqliteTransactionManager::commit`: N commits in matching
(innermost-first) order, stopping at the first failure. -/
def SqliteTransactionManager.commitN : Nat → WorkerState → Except WorkerError WorkerState
  | 0, st => Except.ok st
  | n + 1, st =>
    match SqliteTransactionManager.commit st with
    | Except.error e => Except.error e
    | Except.ok st2 => SqliteTransactionManager.commitN n st2

/-- Claim C10: the default `LogSettings` value logs statements at level
Debug, slow statements at level Warn, and uses a slow-statement threshold
of exactly one second. -/
theorem log_settings_default_values :
    LogSettings.default.statements_level = LevelFilter.debug
    ∧ LogSettings.default.slow_statements_level = LevelFilter.warn
    ∧ LogSettings.default.slow_statements_duration = Duration.from_secs 1 :=
  ⟨rfl, rfl, rfl⟩

/-- Claim C9: `LogSettings::log_statements` changes only the
`statements_level` field, and `LogSettings::log_slow_statements` changes
only the `slow_statements_level` and `slow_statements_duration` fields,
each leaving the other fields unchanged. -/
theorem log_settings_frame (s : LogSettings) (lvl lvl2 : LevelFilter)
    (d : Duration) :
    ((s.log_statements lvl).statements_level = lvl
      ∧ (s.log_statements lvl).slow_statements_level = s.slow_statements_level
      ∧ (s.log_statements lvl).slow_statements_duration
          = s.slow_statements_duration)
    ∧ ((s.log_slow_statements lvl2 d).slow_statements_level = lvl2
      ∧ (s.log_slow_statements lvl2 d).slow_statements_duration = d
      ∧ (s.log_slow_statements lvl2 d).statements_level
          = s.statements_level) :=
  ⟨⟨rfl, rfl, rfl⟩, rfl, rfl, rfl⟩

/-- Claim C7: for every options value,
`ConnectOptions::disable_statement_logging` is exactly the composition of
`log_statements` with level Off followed by `log_slow_statements` with
level Off and the zero duration; instantiated at the concrete
`LogSettings` setters, the result has both levels Off and a zero
threshold. -/
theorem disable_statement_logging_is_composition :
    (∀ (O : Type) (ls : O → LevelFilter → O)
        (lss : O → LevelFilter → Duration → O) (o : O),
      ConnectOptions.disable_statement_logging ls lss o
        = lss (ls o LevelFilter.off) LevelFilter.off Duration.default)
    ∧ ∀ s : LogSettings,
        ConnectOptions.disable_statement_logging LogSettings.log_statements
            LogSettings.log_slow_statements s
          = ⟨LevelFilter.off, LevelFilter.off, ⟨0, 0⟩⟩ :=
  ⟨fun _ _ _ _ => rfl, fun _ => rfl⟩

/-- Claim C8: a backend keeping the provided defaults reports a cached
statement count of 0 for every connection state, and clearing the cache
returns `Ok(())` while leaving the connection state unchanged. -/
theorem cache_defaults_noop {σ E : Type} (conn : σ) :
    Connection.cached_statements_size conn = 0
    ∧ @Connection.clear_cached_statements σ E conn = (Except.ok (), conn) :=
  ⟨rfl, rfl⟩

/-- Claim C2: the default `Connection::begin_concurrent` is exactly the
required `begin` method of the backend, and the SQLite transaction
manager resolves `begin_concurrent` to the same state transition as
`begin`, with the same depth increment. -/
theorem begin_concurrent_eq_begin :
    (∀ (σ Err : Type) (beginFn : σ → Option Err × σ) (self : σ),
        Connection.begin_concurrent beginFn self = beginFn self)
    ∧ ∀ conn : WorkerState,
        SqliteTransactionManager.begin_concurrent conn
            = SqliteTransactionManager.begin conn
        ∧ (SqliteTransactionManager.begin_concurrent conn).depth
            = conn.depth + 1 := by
  refine ⟨fun _ _ _ _ => rfl, fun conn => ⟨rfl, ?_⟩⟩
  by_cases h : conn.depth = 0 <;>
    simp [SqliteTransactionManager.begin_concurrent,
      ConnectionWorker.begin_concurrent, h]

/-- Claim C3: when `begin` succeeds, the callback returns `Ok v` and
`commit` succeeds, the provided `Connection::transaction` returns `Ok v`
and its final state is exactly the result of committing the state the
callback left behind after running inside the begun transaction — the
method is only the composition of the abstract begin, commit and rollback
operations it is handed. -/
theorem transaction_ok_path {σ R Err E : Type}
    (beginTx commit rollback : σ → Option Err × σ) (fromErr : Err → E)
    (callback : σ → Except E R × σ) (self s1 s2 s3 : σ) (v : R)
    (hb : beginTx self = (none, s1))
    (hc : callback s1 = (Except.ok v, s2))
    (hm : commit s2 = (none, s3)) :
    Connection.transaction beginTx commit rollback fromErr callback self
      = (Except.ok v, s3) := by
  simp [Connection.transaction, hb, hc, hm]

/-- The claim stating the ok-path theorem at a concrete instance: begin,
callback and commit are concrete functions on `Nat` states and every
hypothesis is discharged by evaluation. -/
theorem transaction_ok_path_witness :
    ((fun s : Nat => ((none : Option Nat), s + 1)) 0 = (none, 1)
      ∧ (fun s : Nat => ((Except.ok 5 : Except Nat Nat), s + 10)) 1
          = (Except.ok 5, 11)
      ∧ (fun s : Nat => ((none : Option Nat), s + 100)) 11 = (none, 111))
    ∧ Connection.transaction (fun s : Nat => ((none : Option Nat), s + 1))
        (fun s => (none, s + 100)) (fun s => (none, s + 1000))
        (fun e => e) (fun s => ((Except.ok 5 : Except Nat Nat), s + 10)) 0
        = (Except.ok 5, 111) :=
  ⟨⟨rfl, rfl, rfl⟩, transaction_ok_path _ _ _ _ _ 0 1 11 111 5 rfl rfl rfl⟩

/-- Claim C1, counterexample: with a body returning error 42 and a
rollback that itself fails with error 7, the provided
`Connection::transaction` hands the caller the rollback error 7, not the
original error 42 of the body — the `?` after the rollback call drops the
body error. -/
theorem transaction_rollback_error_shadows_body_error :
    (Connection.transaction (fun s : Unit => ((none : Option Nat), s))
        (fun s => (none, s)) (fun s => (some 7, s)) (fun e => e)
        (fun s => ((Except.error 42 : Except Nat Unit), s)) ()).1
      = Except.error 7
    ∧ (Except.error 7 : Except Nat Unit) ≠ Except.error 42 :=
  ⟨rfl, fun h => absurd (Except.error.inj h) (by decide)⟩

/-- Claim C1 as amended: when the body returns an error, the transaction
is rolled back; if the rollback succeeds the caller receives the original
error of the body, but if the rollback itself fails the caller receives
the rollback error instead and the body error is dropped. -/
theorem transaction_err_path {σ R Err E : Type}
    (beginTx commit rollback : σ → Option Err × σ) (fromErr : Err → E)
    (callback : σ → Except E R × σ) (self s1 s2 : σ) (err : E)
    (hb : beginTx self = (none, s1))
    (hc : callback s1 = (Except.error err, s2)) :
    (∀ s3, rollback s2 = (none, s3) →
        Connection.transaction beginTx commit rollback fromErr callback self
          = (Except.error err, s3))
    ∧ ∀ e s3, rollback s2 = (some e, s3) →
        Connection.transaction beginTx commit rollback fromErr callback self
          = (Except.error (fromErr e), s3) := by
  constructor
  · intro s3 hr
    simp [Connection.transaction, hb, hc, hr]
  · intro e s3 hr
    simp [Connection.transaction, hb, hc, hr]

/-- The amended claim at a concrete instance: the body fails with error
42, the rollback succeeds, and the caller receives error 42. -/
theorem transaction_err_path_witness :
    ((fun s : Unit => ((none : Option Nat), s)) () = (none, ())
      ∧ (fun s : Unit => ((Except.error 42 : Except Nat Unit), s)) ()
          = (Except.error 42, ()))
    ∧ Connection.transaction (fun s : Unit => ((none : Option Nat), s))
        (fun s => (none, s)) (fun s => (none, s)) (fun e => e)
        (fun s => ((Except.error 42 : Except Nat Unit), s)) ()
        = (Except.error 42, ()) :=
  ⟨⟨rfl, rfl⟩,
    (transaction_err_path _ _ _ _ _ () () () 42 rfl rfl).1 () rfl⟩

/-- Claim C4: `Connection::connect` first parses the descriptor; on a
parse failure it returns that error for every possible backend connect
function (so no connection attempt can be observed), and on success it
returns exactly `Connection::connect_with` on the parsed options, which
delegates to the connect function of the options. -/
theorem connect_parse_then_connect_with {O C E : Type}
    (parse : String → Except E O) (url : String) :
    (∀ e, parse url = Except.error e →
        ∀ connectFn : O → Except E C,
          Connection.connect parse connectFn url = Except.error e)
    ∧ ∀ o, parse url = Except.ok o →
        ∀ connectFn : O → Except E C,
          Connection.connect parse connectFn url
              = Connection.connect_with connectFn o
          ∧ Connection.connect_with connectFn o = connectFn o := by
  constructor
  · intro e he connectFn
    simp [Connection.connect, he]
  · intro o ho connectFn
    exact ⟨by simp [Connection.connect, ho], rfl⟩

/-- The parse-failure case at a concrete instance: a parse function that
fails with error 3 makes `Connection::connect` return error 3 for a
connect function that would otherwise succeed. -/
theorem connect_parse_then_connect_with_witness :
    (fun _ : String => (Except.error 3 : Except Nat Nat))
        "scheme://bad::url" = Except.error 3
    ∧ Connection.connect (fun _ => (Except.error 3 : Except Nat Nat))
        (fun o : Nat => (Except.ok (o + 1) : Except Nat Nat))
        "scheme://bad::url" = Except.error 3 :=
  ⟨rfl,
    (connect_parse_then_connect_with _ "scheme://bad::url").1 3 rfl _⟩

theorem SqliteTransactionManager.begin_depth (st : WorkerState) :
    (SqliteTransactionManager.begin st).depth = st.depth + 1 := by
  by_cases h : st.depth = 0 <;>
    simp [SqliteTransactionManager.begin, ConnectionWorker.begin, h]

theorem SqliteTransactionManager.beginN_depth (n : Nat) (st : WorkerState) :
    (SqliteTransactionManager.beginN n st).depth = st.depth + n := by
  induction n generalizing st with
  | zero => rfl
  | succ k ih =>
    unfold SqliteTransactionManager.beginN
    rw [ih, SqliteTransactionManager.begin_depth]
    omega

theorem SqliteTransactionManager.commit_ok_depth (st st2 : WorkerState)
    (h : SqliteTransactionManager.commit st = Except.ok st2) :
    st2.depth + 1 = st.depth := by
  obtain ⟨d, l⟩ := st
  match d with
  | 0 =>
    rw [show SqliteTransactionManager.commit ⟨0, l⟩
        = Except.error WorkerError.outOfOrder from rfl] at h
    cases h
  | 1 =>
    rw [show SqliteTransactionManager.commit ⟨1, l⟩
        = Except.ok ⟨0, l ++ ["COMMIT"]⟩ from rfl] at h
    cases h
    rfl
  | n + 2 =>
    rw [show SqliteTransactionManager.commit ⟨n + 2, l⟩
        = Except.ok ⟨n + 1, l ++ ["RELEASE " ++ savepointName (n + 2)]⟩
        from rfl] at h
    cases h
    rfl

theorem SqliteTransactionManager.rollback_ok_depth (st st2 : WorkerState)
    (h : SqliteTransactionManager.rollback st = Except.ok st2) :
    st2.depth + 1 = st.depth := by
  obtain ⟨d, l⟩ := st
  match d with
  | 0 =>
    rw [show SqliteTransactionManager.rollback ⟨0, l⟩
        = Except.error WorkerError.outOfOrder from rfl] at h
    cases h
  | 1 =>
    rw [show SqliteTransactionManager.rollback ⟨1, l⟩
        = Except.ok ⟨0, l ++ ["ROLLBACK"]⟩ from rfl] at h
    cases h
    rfl
  | n + 2 =>
    rw [show SqliteTransactionManager.rollback ⟨n + 2, l⟩
        = Except.ok ⟨n + 1, l ++ ["ROLLBACK TO " ++ savepointName (n + 2)]⟩
        from rfl] at h
    cases h
    rfl

theorem SqliteTransactionManager.commit_succeeds (st : WorkerState)
    (h : 0 < st.depth) :
    ∃ st2, SqliteTransactionManager.commit st = Except.ok st2
      ∧ st2.depth + 1 = st.depth := by
  obtain ⟨d, l⟩ := st
  simp only [WorkerState.depth] at h ⊢
  match d with
  | 0 => omega
  | 1 => exact ⟨⟨0, l ++ ["COMMIT"]⟩, rfl, rfl⟩
  | n + 2 =>
    exact ⟨⟨n + 1, l ++ ["RELEASE " ++ savepointName (n + 2)]⟩, rfl, rfl⟩

theorem SqliteTransactionManager.commitN_ok (n : Nat) (st : WorkerState)
    (h : n ≤ st.depth) :
    ∃ st2, SqliteTransactionManager.commitN n st = Except.ok st2
      ∧ st2.depth = st.depth - n := by
  induction n generalizing st with
  | zero => exact ⟨st, rfl, by omega⟩
  | succ k ih =>
    obtain ⟨st1, hc, hd⟩ :=
      SqliteTransactionManager.commit_succeeds st (by omega)
    obtain ⟨st2, hcn, hd2⟩ := ih st1 (by omega)
    refine ⟨st2, ?_, by omega⟩
    unfold SqliteTransactionManager.commitN
    rw [hc]
    exact hcn

/-- Claim C5: the SQLite transaction-depth state machine is balanced — a
successful commit or rollback always decrements the depth by exactly one
(so starting from a depth it can never pass below zero: resolving at
depth 0 is an error, not a decrement), and for every N at least 1, N
nested begins followed by N commits in matching order succeed and return
the depth to its pre-transaction value 0. -/
theorem sqlite_depth_balanced (st : WorkerState) (N : Nat)
    (h0 : st.depth = 0) (hN : 1 ≤ N) :
    (∃ st2,
        SqliteTransactionManager.commitN N
            (SqliteTransactionManager.beginN N st) = Except.ok st2
        ∧ st2.depth = 0)
    ∧ (∀ a b : WorkerState,
        SqliteTransactionManager.commit a = Except.ok b →
          b.depth + 1 = a.depth)
    ∧ ∀ a b : WorkerState,
        SqliteTransactionManager.rollback a = Except.ok b →
          b.depth + 1 = a.depth := by
  refine ⟨?_, fun a b hab => SqliteTransactionManager.commit_ok_depth a b hab,
    fun a b hab => SqliteTransactionManager.rollback_ok_depth a b hab⟩
  obtain ⟨st2, hc, hd⟩ :=
    SqliteTransactionManager.commitN_ok N
      (SqliteTransactionManager.beginN N st)
      (by rw [SqliteTransactionManager.beginN_depth]; omega)
  refine ⟨st2, hc, ?_⟩
  rw [SqliteTransactionManager.beginN_depth] at hd
  omega

/-- The balance claim at a concrete instance: two nested begins from the
empty state at depth 0, then two commits, end at depth 0. -/
theorem sqlite_depth_balanced_witness :
    ((⟨0, []⟩ : WorkerState).depth = 0 ∧ 1 ≤ 2)
    ∧ ((∃ st2,
        SqliteTransactionManager.commitN 2
            (SqliteTransactionManager.beginN 2 ⟨0, []⟩) = Except.ok st2
        ∧ st2.depth = 0)
      ∧ (∀ a b : WorkerState,
          SqliteTransactionManager.commit a = Except.ok b →
            b.depth + 1 = a.depth)
      ∧ ∀ a b : WorkerState,
          SqliteTransactionManager.rollback a = Except.ok b →
            b.depth + 1 = a.depth) :=
  ⟨⟨rfl, by decide⟩, sqlite_depth_balanced ⟨0, []⟩ 2 rfl (by decide)⟩

/-- Claim C6: `SqliteTransactionManager::start_rollback` swallows every
failure of the enqueued rollback submission — when the submission fails
it still returns normally with the connection state unchanged and no
error reaches any caller, and when the submission succeeds the enqueued
state is adopted. -/
theorem start_rollback_swallows_failure
    (submit : WorkerState → Except WorkerError WorkerState)
    (conn : WorkerState) :
    (∀ e, submit conn = Except.error e →
        SqliteTransactionManager.start_rollback submit conn = conn)
    ∧ ∀ st, submit conn = Except.ok st →
        SqliteTransactionManager.start_rollback submit conn = st := by
  constructor
  · intro e he
    simp [SqliteTransactionManager.start_rollback,
      ConnectionWorker.start_rollback, he]
  · intro st hs
    simp [SqliteTransactionManager.start_rollback,
      ConnectionWorker.start_rollback, hs]

/-- The swallowing claim at a concrete instance: a submission that always
fails with a closed-channel error still leaves `start_rollback` returning
the unchanged state. -/
theorem start_rollback_swallows_failure_witness :
    (fun _ : WorkerState =>
        (Except.error WorkerError.channelClosed
          : Except WorkerError WorkerState)) ⟨1, []⟩
      = Except.error WorkerError.channelClosed
    ∧ SqliteTransactionManager.start_rollback
        (fun _ => Except.error WorkerError.channelClosed) ⟨1, []⟩
      = ⟨1, []⟩ :=
  ⟨rfl,
    (start_rollback_swallows_failure _ ⟨1, []⟩).1
      WorkerError.channelClosed rfl⟩
